import Mathlib

/-!
Shallow embedding of the core of `ai_real_estate_agent.py`
(`PropertyFindingAgent.find_properties` and its helpers): the
category/type mapper, the URL builder, the extraction-prompt builder,
the extraction invoker (response shaping), and the summarization-prompt
builder, together with the two-stage pipeline that ties them together.

Modelling conventions:
- Python `int = None` optional parameters become `Option Int`; Python
  truthiness of such a value (`if min_size:`) is `truthyInt`.
- `max_price` is modelled as `Int`: the presentation layer supplies an
  integer (a `number_input` with integer bounds and step), and Python
  renders it without a decimal point, matching `toString`.
- The response of `firecrawl.extract` is passed to the pipeline as an
  explicit argument of type `Except Unit RawResponse`: `Except.error`
  models a raised transport error, `Except.ok` a returned value.
  `find_properties` contains no try/except, so a raised error
  propagates; this is modelled by the pipeline returning
  `Except.error PyError.transportError` without consulting anything else.
- The completion service (`self.agent.run`) is an oracle
  `llm : String → String` from the prompt sent to the returned content.
- Python builtin `str` of an extracted record dict is an oracle
  `reprRecord : PropertyRecord → String`; builtin `str` of a list of
  such dicts is `pyStrRecordList`, which is determined by the element
  rendering (`"[" ++ elements joined by ", " ++ "]"`).
-/

/-- Property record, after the `PropertyData` schema of the source:
five free-form text fields. The core never inspects the fields; they
only ride through the pipeline. -/
structure PropertyRecord where
  building_name : String
  property_type : String
  location_address : String
  price : String
  description : String
deriving DecidableEq

/-- The `data` dict of a Firecrawl response as consumed by the code:
only the key `properties` is read (`raw_response['data'].get('properties', [])`),
and it may be absent. -/
structure DataDict where
  properties : Option (List PropertyRecord)
deriving DecidableEq

/-- Raw value returned by `firecrawl.extract` as the code sees it:
either not a dict (`isinstance(raw_response, dict)` fails), or a dict
with an optional `success` key (absent key reads as `None`, which is
falsy) and an optional `data` key (reading an absent `data` with
`raw_response['data']` raises `KeyError`). -/
inductive RawResponse where
  | notDict
  | pyDict (success : Option Bool) (data : Option DataDict)
deriving DecidableEq

/-- Python exceptions that the modelled code can raise: `KeyError` from
`property_map[property_category]` or `raw_response['data']`, and a
transport error raised inside `firecrawl.extract`. -/
inductive PyError where
  | keyError
  | transportError
deriving DecidableEq

/-- Truthiness of a Python optional int: `None` and `0` are falsy,
every other int is truthy. This is the test `if min_size:` etc. -/
def truthyInt : Option Int → Bool
  | none => false
  | some n => n != 0

/-- Python f-string rendering of an optional int: `None` renders as the
literal text `None`, an int as its decimal text. -/
def pyStrOptInt : Option Int → String
  | none => "None"
  | some n => toString n

/-- The inner dict of `property_map` for the `Residential` category:
`{"HDB": "H", "Condo": "N", "Landed": "L"}`, read with
`.get(property_type, "H")` so a missing key is `none` here. -/
def residentialSubDict : String → Option String :=
  fun t =>
    if t = "HDB" then some "H"
    else if t = "Condo" then some "N"
    else if t = "Landed" then some "L"
    else none

/-- Values of the `property_map` dict: either a nested dict (the
`Residential` entry) or a plain string code (the `Commercial` entry).
This mirrors the `isinstance(pro_type, dict)` test in the source. -/
inductive PropertyMapValue where
  | subDict (lookup : String → Option String)
  | strCode (c : String)

/-- The `property_map` dict literal of the source: keys `Residential`
(nested type dict) and `Commercial` (code `com`); any other key is
absent (`none`), so indexing it raises `KeyError`. -/
def property_map : String → Option PropertyMapValue :=
  fun category =>
    if category = "Residential" then some (PropertyMapValue.subDict residentialSubDict)
    else if category = "Commercial" then some (PropertyMapValue.strCode "com")
    else none

/-- Lines 76-78 of the source: `pro_type = property_map[property_category]`
(raising `KeyError` when the category is unmapped), then
`pro_type.get(property_type, "H")` when the entry is a dict. -/
def proType (property_category property_type : String) : Except PyError String :=
  match property_map property_category with
  | none => Except.error PyError.keyError
  | some (PropertyMapValue.subDict lookup) => Except.ok ((lookup property_type).getD "H")
  | some (PropertyMapValue.strCode c) => Except.ok c

/-- Fixed pieces of the query-URL template, split at the interpolation
points of the f-string on line 80 of the source. -/
def urlChunk1 : String :=
  "https://www.propertyguru.com.sg/property-for-sale?listingType=sale&page=1&isCommercial=false&maxPrice="

def urlChunk2 : String := "&hdbEstate=1&_freetextDisplay="

def urlChunk3 : String := "&bedrooms="

def urlChunk4 : String := "&minSize="

def urlChunk5 : String := "&maxSize="

def urlChunk6 : String := "&propertyTypeGroup="

/-- URL builder (lines 64 and 79-85): one query URL, with the location
lower-cased (`formatted_location = city.lower()`) and every filter
interpolated by the f-string, absent filters included (they render as
the text `None`). -/
def buildUrl (city : String) (max_price : Int)
    (min_size max_size bedrooms : Option Int) (pro_type : String) : String :=
  urlChunk1 ++ toString max_price ++ urlChunk2 ++ city.toLower
    ++ urlChunk3 ++ pyStrOptInt bedrooms
    ++ urlChunk4 ++ pyStrOptInt min_size
    ++ urlChunk5 ++ pyStrOptInt max_size
    ++ urlChunk6 ++ pro_type

/-- The dict-with-default lookup on lines 87-91: display name for the
property type used inside the extraction prompt, defaulting to
`HDB Flats`. -/
def property_type_prompt (property_type : String) : String :=
  if property_type = "HDB" then "HDB Flats"
  else if property_type = "Condo" then "Condominiums"
  else if property_type = "Landed" then "Landed Houses"
  else "HDB Flats"

/-- The fixed extraction-prompt template of lines 93-103, with the
interpolated values spliced in. `ptp` is the already-mapped display
name (`property_type_prompt`). The odd whitespace (trailing blanks,
8-space indents) reproduces the Python triple-quoted literal. -/
def basePrompt (city : String) (max_price : Int)
    (property_category ptp : String) : String :=
  "Extract ONLY 10 OR LESS different " ++ property_category ++ " " ++ ptp
    ++ " from " ++ city ++ " that cost less than " ++ toString max_price
    ++ " SGD.\n        \n        Requirements:\n        - Property Category: "
    ++ property_category
    ++ " properties only\n        - Property Type: " ++ ptp
    ++ " only\n        - Location: " ++ city
    ++ "\n        - Maximum Price: " ++ toString max_price
    ++ " SGD\n        - Include complete property details with exact location\n        - IMPORTANT: Return data for at least 3 different properties. MAXIMUM 10.\n        - Format as a list of properties with their respective details\n        "

/-- Extraction-prompt builder (lines 93-110): the fixed template, then
one `+=` per optional filter guarded by Python truthiness
(`if min_size:` etc.), in source order min size, max size, bedrooms.
`getD 0` is only a totalization artifact: the branch is taken only when
the value is a nonzero `some`. -/
def buildExtractPrompt (city : String) (max_price : Int)
    (property_category property_type : String)
    (min_size max_size bedrooms : Option Int) : String :=
  let prompt := basePrompt city max_price property_category (property_type_prompt property_type)
  let prompt := if truthyInt min_size then
      prompt ++ ("\n- Minimum Size: " ++ toString (min_size.getD 0) ++ " sq ft")
    else prompt
  let prompt := if truthyInt max_size then
      prompt ++ ("\n- Maximum Size: " ++ toString (max_size.getD 0) ++ " sq ft")
    else prompt
  if truthyInt bedrooms then
    prompt ++ ("\n- Number of Bedrooms: " ++ toString (bedrooms.getD 0))
  else prompt

/-- Response shaping of lines 122-125:
`properties = raw_response['data'].get('properties', [])` when the
response is a dict whose `success` value is truthy, `properties = []`
otherwise; reading `data` on a successful dict that lacks it raises
`KeyError`. -/
def extractProperties : RawResponse → Except PyError (List PropertyRecord)
  | RawResponse.notDict => Except.ok []
  | RawResponse.pyDict success data =>
      if success.getD false then
        match data with
        | none => Except.error PyError.keyError
        | some d => Except.ok (d.properties.getD [])
      else Except.ok []

/-- Extraction invoker over the transport boundary: a transport error
raised by `firecrawl.extract` is not caught anywhere in
`find_properties`, so it propagates; a returned value goes through the
shaping of lines 122-125. -/
def runExtraction : Except Unit RawResponse → Except PyError (List PropertyRecord)
  | Except.error _ => Except.error PyError.transportError
  | Except.ok raw => extractProperties raw

/-- Fixed pieces of the summarization-prompt template (lines 131-172),
split at the interpolation points and around the five section headers.
Whitespace reproduces the Python triple-quoted literal (12-space
indents, blank separator lines). -/
def analysisChunk1 : String :=
  "As a real estate expert, analyze these properties and market trends:\n\n            Properties Found in json format:\n            "

def analysisChunk2 : String :=
  "\n\n            **IMPORTANT INSTRUCTIONS:**\n            1. ONLY analyze properties from the above JSON data that match the user\x27s requirements:\n               - Property Category: "

def analysisChunk3 : String := "\n               - Property Type: "

def analysisChunk4 : String := "\n               - Maximum Price: "

def analysisChunk5 : String :=
  " SGD\n            2. DO NOT create new categories or property types\n            3. From the matching properties, select 5-6 properties with prices closest to "

def analysisChunk6 : String :=
  " SGD\n\n            Please provide your analysis in this format:\n            \n            🏠 "

def analysisChunk7 : String :=
  "\n            • List only 5-6 best matching properties with prices closest to "

def analysisChunk8 : String :=
  " SGD\n            • For each property include:\n              - Name and Location\n              - Price (with value analysis)\n              - Key Features\n              - Pros and Cons\n\n            💰 "

def analysisChunk9 : String :=
  "\n            • Compare the selected properties based on:\n              - Price per sq ft\n              - Location advantage\n              - Amenities offered\n\n            📍 "

def analysisChunk10 : String :=
  "\n            • Specific advantages of the areas where selected properties are located\n\n            💡 "

def analysisChunk11 : String :=
  "\n            • Top 3 properties from the selection with reasoning\n            • Investment potential\n            • Points to consider before purchase\n\n            🤝 "

def analysisChunk12 : String :=
  "\n            • Property-specific negotiation strategies\n\n            Format your response in a clear, structured way using the above sections.\n            "

/-- Summarization-prompt builder (lines 130-173): embeds the rendered
record list and restates category, type and max price, then the fixed
instruction text with the five section headers. `propsRepr` is the
Python `str` of the `properties` list. -/
def buildAnalysisPrompt (propsRepr property_category property_type : String)
    (max_price : Int) : String :=
  analysisChunk1 ++ propsRepr
    ++ analysisChunk2 ++ property_category
    ++ analysisChunk3 ++ property_type
    ++ analysisChunk4 ++ toString max_price
    ++ analysisChunk5 ++ toString max_price
    ++ analysisChunk6 ++ "SELECTED PROPERTIES"
    ++ analysisChunk7 ++ toString max_price
    ++ analysisChunk8 ++ "BEST VALUE ANALYSIS"
    ++ analysisChunk9 ++ "LOCATION INSIGHTS"
    ++ analysisChunk10 ++ "RECOMMENDATIONS"
    ++ analysisChunk11 ++ "NEGOTIATION TIPS"
    ++ analysisChunk12

/-- Python builtin `str` of a list, given the rendering of each
element: `str([]) = "[]"`, `str([a, b]) = "[" + repr a + ", " + repr b + "]"`. -/
def pyStrRecordList (reprRecord : PropertyRecord → String)
    (rs : List PropertyRecord) : String :=
  "[" ++ String.intercalate ", " (rs.map reprRecord) ++ "]"

/-- The `find_properties` pipeline (lines 53-175): map the category and
type (a `KeyError` here aborts before any remote call), build the
request (URL list and extraction prompt), invoke the extraction service
oracle `extract` on that request (`Except.error` models a raised
transport error, which propagates uncaught since the function has no
try/except), shape the response to a record list, build the
summarization prompt embedding that list, send it to the completion
service `llm`, and return the content. -/
def find_properties (reprRecord : PropertyRecord → String)
    (extract : List String → String → Except Unit RawResponse)
    (llm : String → String) (city : String) (max_price : Int)
    (property_category property_type : String)
    (min_size max_size bedrooms : Option Int) : Except PyError String :=
  match proType property_category property_type with
  | Except.error e => Except.error e
  | Except.ok pro_type =>
      let urls := [buildUrl city max_price min_size max_size bedrooms pro_type]
      let prompt := buildExtractPrompt city max_price
        property_category property_type min_size max_size bedrooms
      match runExtraction (extract urls prompt) with
      | Except.error e => Except.error e
      | Except.ok properties =>
          Except.ok (llm (buildAnalysisPrompt
            (pyStrRecordList reprRecord properties)
            property_category property_type max_price))

/-- Concrete record used as a generic service-returned element in
closed instances of the theorems below. -/
def dummyRecord : PropertyRecord :=
  ⟨"Skyline Tower", "Residential", "1 Example Ave", "500000", "A flat"⟩

/-- C2: the category/type mapper sends Residential HDB, Condo, Landed to
H, N, L respectively, any other Residential type to H, and Commercial to
com regardless of type. -/
theorem C2_property_map (t u : String)
    (h1 : t ≠ "HDB") (h2 : t ≠ "Condo") (h3 : t ≠ "Landed") :
    proType "Residential" "HDB" = Except.ok "H" ∧
    proType "Residential" "Condo" = Except.ok "N" ∧
    proType "Residential" "Landed" = Except.ok "L" ∧
    proType "Residential" t = Except.ok "H" ∧
    proType "Commercial" u = Except.ok "com" := by
  refine ⟨rfl, rfl, rfl, ?_, rfl⟩
  simp [proType, property_map, residentialSubDict, h1, h2, h3]

/-- C2 witness: the mapper evaluated at each named type, at the unknown
type Bungalow, and at Commercial with type Office. -/
theorem C2_property_map_witness :
    proType "Residential" "HDB" = Except.ok "H" ∧
    proType "Residential" "Condo" = Except.ok "N" ∧
    proType "Residential" "Landed" = Except.ok "L" ∧
    proType "Residential" "Bungalow" = Except.ok "H" ∧
    proType "Commercial" "Office" = Except.ok "com" :=
  C2_property_map "Bungalow" "Office" (by decide) (by decide) (by decide)

/-- C1 counterexample: when a transport error is raised by the
extraction call, the invoker does not return an empty record sequence
(there is no try/except in `find_properties`): the error propagates. -/
theorem C1_transport_counterexample :
    runExtraction (Except.error ()) = Except.error PyError.transportError ∧
    runExtraction (Except.error ()) ≠ Except.ok [] := by
  refine ⟨rfl, ?_⟩
  simp [runExtraction]

/-- C1 (amended): the invoker returns an empty sequence when the
response is not a dict, when its success value is falsy, or when a
successful response carries a data dict lacking the properties key; it
returns the supplied sequence unmodified when success is truthy and the
key is present; a successful response with no data key at all raises an
uncaught key error; and a raised transport error propagates uncaught
instead of yielding an empty sequence. -/
theorem C1_extraction_invoker (success : Option Bool) (data : Option DataDict)
    (props : List PropertyRecord) (hs : success.getD false = false) :
    extractProperties RawResponse.notDict = Except.ok [] ∧
    extractProperties (RawResponse.pyDict success data) = Except.ok [] ∧
    extractProperties (RawResponse.pyDict (some true) (some ⟨some props⟩)) = Except.ok props ∧
    extractProperties (RawResponse.pyDict (some true) (some ⟨none⟩)) = Except.ok [] ∧
    extractProperties (RawResponse.pyDict (some true) none) = Except.error PyError.keyError ∧
    runExtraction (Except.error ()) = Except.error PyError.transportError := by
  refine ⟨rfl, ?_, rfl, rfl, rfl, rfl⟩
  simp [extractProperties, hs]

/-- C1 witness: the amended invoker behavior at a concrete failing
response, a concrete successful response, and a concrete malformed
response. -/
theorem C1_extraction_invoker_witness :
    extractProperties RawResponse.notDict = Except.ok [] ∧
    extractProperties (RawResponse.pyDict (some false) none) = Except.ok [] ∧
    extractProperties (RawResponse.pyDict (some true) (some ⟨some [dummyRecord]⟩)) =
      Except.ok [dummyRecord] ∧
    extractProperties (RawResponse.pyDict (some true) (some ⟨none⟩)) = Except.ok [] ∧
    extractProperties (RawResponse.pyDict (some true) none) = Except.error PyError.keyError ∧
    runExtraction (Except.error ()) = Except.error PyError.transportError :=
  C1_extraction_invoker (some false) none [dummyRecord] rfl

/-- C3 counterexample: with the minimum-size filter present but equal to
0, the prompt builder appends no line for it — the output equals the
bare template, and differs from the template with the minimum-size line
appended, contradicting one line per present filter. -/
theorem C3_zero_filter_counterexample :
    buildExtractPrompt "Punggol" 500000 "Residential" "HDB" (some 0) none none =
      basePrompt "Punggol" 500000 "Residential" (property_type_prompt "HDB") ∧
    buildExtractPrompt "Punggol" 500000 "Residential" "HDB" (some 0) none none ≠
      basePrompt "Punggol" 500000 "Residential" (property_type_prompt "HDB")
        ++ ("\n- Minimum Size: " ++ toString (0 : Int) ++ " sq ft") := by
  refine ⟨rfl, fun h => ?_⟩
  have h0 : buildExtractPrompt "Punggol" 500000 "Residential" "HDB" (some 0) none none =
      basePrompt "Punggol" 500000 "Residential" (property_type_prompt "HDB") := rfl
  rw [h0] at h
  have hlen := congrArg String.length h
  rw [String.length_append] at hlen
  have h24 : ("\n- Minimum Size: " ++ toString (0 : Int) ++ " sq ft").length = 24 := rfl
  rw [h24] at hlen
  omega

/-- C3 (amended): the extraction-prompt builder appends exactly one
additional line per truthy optional filter (present and nonzero; Python
truthiness is how the code tests presence), in the fixed order minimum
size, maximum size, bedrooms, and appends zero additional lines when
every optional filter is absent or zero. -/
theorem C3_extract_prompt_lines (city : String) (max_price : Int)
    (property_category property_type : String)
    (min_size max_size bedrooms : Option Int) :
    buildExtractPrompt city max_price property_category property_type
        min_size max_size bedrooms =
      basePrompt city max_price property_category (property_type_prompt property_type)
        ++ (if truthyInt min_size then
              "\n- Minimum Size: " ++ toString (min_size.getD 0) ++ " sq ft" else "")
        ++ (if truthyInt max_size then
              "\n- Maximum Size: " ++ toString (max_size.getD 0) ++ " sq ft" else "")
        ++ (if truthyInt bedrooms then
              "\n- Number of Bedrooms: " ++ toString (bedrooms.getD 0) else "") := by
  cases hmn : truthyInt min_size <;> cases hmx : truthyInt max_size <;>
    cases hbd : truthyInt bedrooms <;>
    simp [buildExtractPrompt, hmn, hmx, hbd, String.append_assoc, String.append_empty]

/-- C4: the prompt sent to the summarization service contains the five
fixed section header strings SELECTED PROPERTIES, BEST VALUE ANALYSIS,
LOCATION INSIGHTS, RECOMMENDATIONS, NEGOTIATION TIPS, in that order,
for every input. -/
theorem C4_summary_headers (propsRepr property_category property_type : String)
    (max_price : Int) :
    ∃ s1 s2 s3 s4 s5 s6 : String,
      buildAnalysisPrompt propsRepr property_category property_type max_price =
        s1 ++ "SELECTED PROPERTIES" ++ s2 ++ "BEST VALUE ANALYSIS"
          ++ s3 ++ "LOCATION INSIGHTS" ++ s4 ++ "RECOMMENDATIONS"
          ++ s5 ++ "NEGOTIATION TIPS" ++ s6 := by
  refine ⟨analysisChunk1 ++ propsRepr ++ analysisChunk2 ++ property_category
      ++ analysisChunk3 ++ property_type ++ analysisChunk4 ++ toString max_price
      ++ analysisChunk5 ++ toString max_price ++ analysisChunk6,
    analysisChunk7 ++ toString max_price ++ analysisChunk8,
    analysisChunk9, analysisChunk10, analysisChunk11, analysisChunk12, ?_⟩
  simp [buildAnalysisPrompt, String.append_assoc]

/-- C5: the URL produced by the URL builder contains the lower-cased
location string and the literal max-price value, for every input. -/
theorem C5_url_contents (city : String) (max_price : Int)
    (min_size max_size bedrooms : Option Int) (pro_type : String) :
    (∃ a b, buildUrl city max_price min_size max_size bedrooms pro_type =
      a ++ city.toLower ++ b) ∧
    (∃ a b, buildUrl city max_price min_size max_size bedrooms pro_type =
      a ++ toString max_price ++ b) := by
  constructor
  · refine ⟨urlChunk1 ++ toString max_price ++ urlChunk2,
      urlChunk3 ++ pyStrOptInt bedrooms ++ urlChunk4 ++ pyStrOptInt min_size
        ++ urlChunk5 ++ pyStrOptInt max_size ++ urlChunk6 ++ pro_type, ?_⟩
    simp [buildUrl, String.append_assoc]
  · refine ⟨urlChunk1,
      urlChunk2 ++ city.toLower ++ urlChunk3 ++ pyStrOptInt bedrooms
        ++ urlChunk4 ++ pyStrOptInt min_size ++ urlChunk5 ++ pyStrOptInt max_size
        ++ urlChunk6 ++ pro_type, ?_⟩
    simp [buildUrl, String.append_assoc]

/-- C7: an absent optional filter is not omitted from the URL: its query
parameter still appears, carrying the interpolation of the absent value
(the text None, Python's rendering of the absent filter). -/
theorem C7_absent_filters (city : String) (max_price : Int)
    (min_size max_size bedrooms : Option Int) (pro_type : String) :
    (min_size = none → ∃ a b,
      buildUrl city max_price min_size max_size bedrooms pro_type =
        a ++ "&minSize=" ++ "None" ++ b) ∧
    (max_size = none → ∃ a b,
      buildUrl city max_price min_size max_size bedrooms pro_type =
        a ++ "&maxSize=" ++ "None" ++ b) ∧
    (bedrooms = none → ∃ a b,
      buildUrl city max_price min_size max_size bedrooms pro_type =
        a ++ "&bedrooms=" ++ "None" ++ b) := by
  refine ⟨fun hmn => ?_, fun hmx => ?_, fun hbd => ?_⟩
  · subst hmn
    refine ⟨urlChunk1 ++ toString max_price ++ urlChunk2 ++ city.toLower
        ++ urlChunk3 ++ pyStrOptInt bedrooms,
      urlChunk5 ++ pyStrOptInt max_size ++ urlChunk6 ++ pro_type, ?_⟩
    simp [buildUrl, urlChunk4, pyStrOptInt, String.append_assoc]
  · subst hmx
    refine ⟨urlChunk1 ++ toString max_price ++ urlChunk2 ++ city.toLower
        ++ urlChunk3 ++ pyStrOptInt bedrooms ++ urlChunk4 ++ pyStrOptInt min_size,
      urlChunk6 ++ pro_type, ?_⟩
    simp [buildUrl, urlChunk5, pyStrOptInt, String.append_assoc]
  · subst hbd
    refine ⟨urlChunk1 ++ toString max_price ++ urlChunk2 ++ city.toLower,
      urlChunk4 ++ pyStrOptInt min_size ++ urlChunk5 ++ pyStrOptInt max_size
        ++ urlChunk6 ++ pro_type, ?_⟩
    simp [buildUrl, urlChunk3, pyStrOptInt, String.append_assoc]

/-- C7 witness: the URL built with all optional filters absent carries
each of the three filter parameters with the value None. -/
theorem C7_absent_filters_witness :
    (∃ a b, buildUrl "Punggol" 500000 none none none "H" =
      a ++ "&minSize=" ++ "None" ++ b) ∧
    (∃ a b, buildUrl "Punggol" 500000 none none none "H" =
      a ++ "&maxSize=" ++ "None" ++ b) ∧
    (∃ a b, buildUrl "Punggol" 500000 none none none "H" =
      a ++ "&bedrooms=" ++ "None" ++ b) :=
  ⟨(C7_absent_filters "Punggol" 500000 none none none "H").1 rfl,
   (C7_absent_filters "Punggol" 500000 none none none "H").2.1 rfl,
   (C7_absent_filters "Punggol" 500000 none none none "H").2.2 rfl⟩

/-- C6: when the extraction service responds with success false, the
pipeline does not short-circuit: the invoker yields an empty record
list, and the summarization prompt embedding that empty list (rendered
as an empty JSON list) is still generated and handed to the completion
service, whose output becomes the result. -/
theorem C6_no_short_circuit (property_category : String)
    (h : property_category = "Residential" ∨ property_category = "Commercial")
    (reprRecord : PropertyRecord → String) (llm : String → String)
    (city : String) (max_price : Int) (property_type : String)
    (min_size max_size bedrooms : Option Int) (data : Option DataDict) :
    find_properties reprRecord
        (fun _ _ => Except.ok (RawResponse.pyDict (some false) data))
        llm city max_price property_category property_type
        min_size max_size bedrooms =
      Except.ok (llm (buildAnalysisPrompt (pyStrRecordList reprRecord [])
        property_category property_type max_price)) ∧
    pyStrRecordList reprRecord [] = "[]" := by
  constructor
  · rcases h with rfl | rfl <;> rfl
  · rfl

/-- C6 witness: the pipeline run at concrete inputs against a service
that reports failure still produces the completion-service output on
the summarization prompt that embeds the empty record list. -/
theorem C6_no_short_circuit_witness :
    find_properties (fun _ => "r")
        (fun _ _ => Except.ok (RawResponse.pyDict (some false) none))
        id "Punggol" 500000 "Residential" "HDB" none none none =
      Except.ok (id (buildAnalysisPrompt (pyStrRecordList (fun _ => "r") [])
        "Residential" "HDB" 500000)) ∧
    pyStrRecordList (fun _ => "r") [] = "[]" :=
  C6_no_short_circuit "Residential" (Or.inl rfl) (fun _ => "r") id
    "Punggol" 500000 "HDB" none none none none

/-- C8 counterexample: the invoker does not truncate: a successful
response carrying eleven records is returned with all eleven entries,
so the record set is not bounded by 10 for every response. -/
theorem C8_counterexample :
    extractProperties (RawResponse.pyDict (some true)
        (some ⟨some (List.replicate 11 dummyRecord)⟩)) =
      Except.ok (List.replicate 11 dummyRecord) ∧
    (List.replicate 11 dummyRecord).length = 11 := by
  exact ⟨rfl, by simp⟩

/-- C8 (amended): the invoker returns the service-supplied record
sequence unmodified (hence in service order), so the record set has at
most 10 entries exactly when the service returns at most 10 — the
bound of 10 is requested in the extraction prompt but not enforced
locally. -/
theorem C8_record_set (props : List PropertyRecord) (h : props.length ≤ 10) :
    extractProperties (RawResponse.pyDict (some true) (some ⟨some props⟩)) =
      Except.ok props ∧
    ∀ l, extractProperties (RawResponse.pyDict (some true) (some ⟨some props⟩)) =
      Except.ok l → l.length ≤ 10 := by
  refine ⟨rfl, fun l hl => ?_⟩
  simp [extractProperties] at hl
  exact hl ▸ h

/-- C8 witness: a compliant single-record response passes through
unmodified and within the bound. -/
theorem C8_record_set_witness :
    extractProperties (RawResponse.pyDict (some true) (some ⟨some [dummyRecord]⟩)) =
      Except.ok [dummyRecord] ∧
    ∀ l, extractProperties (RawResponse.pyDict (some true) (some ⟨some [dummyRecord]⟩)) =
      Except.ok l → l.length ≤ 10 :=
  C8_record_set [dummyRecord] (by decide)

/-- C9: a zero-valued optional filter behaves exactly like an absent
one in the extraction prompt, because the code tests presence by Python
truthiness: substituting 0 for an absent minimum size, maximum size, or
bedroom count leaves the built prompt unchanged. -/
theorem C9_zero_filters (city : String) (max_price : Int)
    (property_category property_type : String) (mn mx bd : Option Int) :
    buildExtractPrompt city max_price property_category property_type
        (some 0) mx bd =
      buildExtractPrompt city max_price property_category property_type
        none mx bd ∧
    buildExtractPrompt city max_price property_category property_type
        mn (some 0) bd =
      buildExtractPrompt city max_price property_category property_type
        mn none bd ∧
    buildExtractPrompt city max_price property_category property_type
        mn mx (some 0) =
      buildExtractPrompt city max_price property_category property_type
        mn mx none := by
  exact ⟨rfl, rfl, rfl⟩

/-- C10: for a property category that is neither Residential nor
Commercial, the pipeline fails with the uncaught key-lookup error, for
every extraction-service and completion-service behavior (so before and
independent of any remote call); by contrast an unknown type under
Residential falls back to H. -/
theorem C10_unknown_category (property_category : String)
    (h1 : property_category ≠ "Residential")
    (h2 : property_category ≠ "Commercial")
    (reprRecord : PropertyRecord → String)
    (extract : List String → String → Except Unit RawResponse)
    (llm : String → String) (city : String) (max_price : Int)
    (property_type : String) (min_size max_size bedrooms : Option Int) :
    find_properties reprRecord extract llm city max_price
        property_category property_type min_size max_size bedrooms =
      Except.error PyError.keyError ∧
    proType "Residential" "Shophouse" = Except.ok "H" := by
  refine ⟨?_, rfl⟩
  have hp : property_map property_category = none := by
    simp [property_map, h1, h2]
  simp [find_properties, proType, hp]

/-- C10 witness: the pipeline at the concrete unmapped category
Industrial fails with the key error whatever the services would have
answered. -/
theorem C10_unknown_category_witness :
    find_properties (fun _ => "r") (fun _ _ => Except.ok RawResponse.notDict)
        id "Punggol" 500000 "Industrial" "HDB" none none none =
      Except.error PyError.keyError ∧
    proType "Residential" "Shophouse" = Except.ok "H" :=
  C10_unknown_category "Industrial" (by decide) (by decide) (fun _ => "r")
    (fun _ _ => Except.ok RawResponse.notDict) id "Punggol" 500000 "HDB"
    none none none
